import Mathlib

/-!
Shallow embedding of `supabase/functions/explain/index.ts`: the layered
fallback content pipeline (heuristic generator, model-backed generator)
and the partial-failure-tolerant persistence sequence of the `serve`
handler, together with theorems settling the specification claims.
-/

set_option maxRecDepth 4000

namespace Explain

/-- Dynamic JSON values, as produced by `JSON.parse` in the source.
The model-backed generator returns such a value unvalidated. -/
inductive Json where
  | null
  | bool (b : Bool)
  | num (n : Int)
  | str (s : String)
  | arr (elems : List Json)
  | obj (fields : List (String × Json))

/-- Scalar values appearing in the `vars` records of the trace objects
that this source constructs (numbers, booleans, strings). -/
inductive JVal where
  | num (n : Int)
  | bool (b : Bool)
  | str (s : String)
deriving DecidableEq, Repr

/-- One entry of `trace.steps`: `{ line, vars }`. -/
structure TraceStep where
  line : Int
  vars : List (String × JVal)
deriving DecidableEq, Repr

/-- The `trace` field of an `LLMResponse`: `{ input, steps }`. -/
structure Trace where
  input : String
  steps : List TraceStep
deriving DecidableEq, Repr

/-- One quiz item of an `LLMResponse`. -/
structure Quiz where
  question : String
  choices : List String
  answer : String
  hint : String
  difficulty : String
deriving DecidableEq, Repr

/-- The `LLMResponse` interface of the source: the four-part content
bundle (explanation, mermaid diagram, trace, quizzes). -/
structure LLMResponse where
  explanation : String
  mermaid : String
  trace : Trace
  quizzes : List Quiz
deriving DecidableEq, Repr

/-- Word characters for the regex metacharacter `\b` (ASCII `\w`). -/
def isWordChar (c : Char) : Bool :=
  c.isAlpha || c.isDigit || c == '_'

/-- A `\b` boundary holds before a keyword when the previous character
(none at the start of the text) is not a word character. -/
def boundaryOk (prev : Option Char) : Bool :=
  match prev with
  | none => true
  | some c => !isWordChar c

/-- A `\b` boundary holds after a keyword when the following text is
empty or starts with a non-word character. -/
def boundaryAfter : List Char → Bool
  | [] => true
  | c :: _ => !isWordChar c

/-- The keyword `kw` matches at the current position of `cs` with `\b`
boundaries on both sides (`prev` is the character just before `cs`). -/
def matchHere (kw : List Char) (prev : Option Char) (cs : List Char) : Bool :=
  boundaryOk prev && kw.isPrefixOf cs && boundaryAfter (cs.drop kw.length)

/-- Scan of the text for a `\b`-delimited occurrence of `kw`. -/
def hasKeywordFrom (kw : List Char) : Option Char → List Char → Bool
  | prev, [] => matchHere kw prev []
  | prev, c :: rest => matchHere kw prev (c :: rest) || hasKeywordFrom kw (some c) rest

/-- Case-insensitive word-boundary keyword test: the model of
`/\b(kw)\b/i.test(code)` for a single lower-case keyword `kw`. -/
def testKeyword (code : String) (kw : String) : Bool :=
  hasKeywordFrom (kw.data.map Char.toLower) none (code.data.map Char.toLower)

/-- Model of the source test `/\b(for|while|do)\b/i.test(code)`. -/
def hasLoops (code : String) : Bool :=
  testKeyword code "for" || testKeyword code "while" || testKeyword code "do"

/-- Model of the source test `/\b(if|else|switch|case)\b/i.test(code)`. -/
def hasConditionals (code : String) : Bool :=
  testKeyword code "if" || testKeyword code "else" || testKeyword code "switch" || testKeyword code "case"

/-- Model of the source test `/\b(function|def|func)\b/i.test(code)`. -/
def hasFunctions (code : String) : Bool :=
  testKeyword code "function" || testKeyword code "def" || testKeyword code "func"

/-- Explanation text built by `generateFallbackResponse`, mirroring the
sequential `+=` clause appends of the source for each reading level. -/
def fallbackExplanation (language readingLevel : String) (hl hc hf : Bool) : String :=
  if readingLevel == "12" then
    let e := "This " ++ language ++ " code is like following a recipe! It takes some information (ingredients) and follows step-by-step instructions to create a result. The computer reads each line and does what it says, just like you would follow cooking instructions."
    let e := if hl then e ++ " Some steps say 'repeat this part until something happens' - that's like stirring until the mixture is smooth." else e
    let e := if hc then e ++ " Other steps say 'if this, then do that' - like checking if the cake is done before taking it out." else e
    e
  else if readingLevel == "15" then
    let e := "This " ++ language ++ " code demonstrates fundamental programming concepts. It processes input data through a series of logical operations to produce a desired output."
    let e := if hl then e ++ " It uses loops to repeat certain operations efficiently." else e
    let e := if hc then e ++ " Conditional statements help the program make decisions based on different scenarios." else e
    let e := if hf then e ++ " Functions help organize the code into reusable blocks." else e
    e
  else
    let e := "This " ++ language ++ " code implements a computational algorithm using standard programming constructs. The implementation follows best practices for readability and maintainability."
    let e := if hl then e ++ " Iterative constructs handle repetitive operations with appropriate termination conditions." else e
    let e := if hc then e ++ " Conditional logic enables branching behavior based on runtime evaluation." else e
    let e := if hf then e ++ " Modular function design promotes code reusability and separation of concerns." else e
    e

/-- Mermaid diagram selected by `generateFallbackResponse` from the pair
of signals `(hasLoops, hasConditionals)`. -/
def fallbackMermaid (hl hc : Bool) : String :=
  if hl && hc then
    "graph TD\n    A[Start] --> B[Initialize Variables]\n    B --> C[Loop Condition]\n    C -->|True| D\x7bCheck Condition\x7d\n    D -->|Met| E[Execute Action A]\n    D -->|Not Met| F[Execute Action B]\n    E --> G[Update Variables]\n    F --> G\n    G --> C\n    C -->|False| H[End]"
  else if hl then
    "graph TD\n    A[Start] --> B[Initialize Counter]\n    B --> C[Check Loop Condition]\n    C -->|True| D[Execute Loop Body]\n    D --> E[Update Counter]\n    E --> C\n    C -->|False| F[End]"
  else if hc then
    "graph TD\n    A[Start] --> B[Check Condition]\n    B -->|True| C[Execute Branch A]\n    B -->|False| D[Execute Branch B]\n    C --> E[End]\n    D --> E"
  else
    "graph TD\n    A[Start] --> B[Process Input]\n    B --> C[Apply Logic]\n    C --> D[Generate Output]\n    D --> E[End]"

/-- The fixed placeholder trace of `generateFallbackResponse`. -/
def fallbackTrace : Trace :=
  { input := "sample_input"
  , steps :=
    [ { line := 1, vars := [("input", JVal.str "sample_input")] }
    , { line := 2, vars := [("input", JVal.str "sample_input"), ("processed", JVal.bool true)] } ] }

/-- The three quizzes of `generateFallbackResponse`; the second quiz is
selected by the signal priority `hasLoops` over `hasConditionals`. -/
def fallbackQuizzes (hl hc : Bool) : List Quiz :=
  [ { question := "What is the main purpose of this code?"
    , choices := ["Process data according to specific logic", "Create a user interface", "Manage database connections", "Handle file operations"]
    , answer := "Process data according to specific logic"
    , hint := "Look at the overall structure and operations performed"
    , difficulty := "easy" }
  , { question := "Which programming concept is most evident in this code?"
    , choices :=
        if hl then ["Loops for repetition", "Database operations", "Network requests", "Graphics rendering"]
        else if hc then ["Conditional logic", "File handling", "Memory management", "Thread synchronization"]
        else ["Sequential processing", "Parallel computing", "Distributed systems", "Machine learning"]
    , answer := if hl then "Loops for repetition" else if hc then "Conditional logic" else "Sequential processing"
    , hint := "Think about the fundamental programming constructs used"
    , difficulty := "medium" }
  , { question := "What should you consider before running this code?"
    , choices := ["Input requirements and expected format", "Internet connection speed", "Screen resolution", "Audio settings"]
    , answer := "Input requirements and expected format"
    , hint := "Consider what the code needs to work properly"
    , difficulty := "easy" } ]

/-- The heuristic content generator `generateFallbackResponse` of the
source: detects the three lexical signals and assembles the bundle. -/
def generateFallbackResponse (code language readingLevel : String) : LLMResponse :=
  let hl := hasLoops code
  let hc := hasConditionals code
  let hf := hasFunctions code
  { explanation := fallbackExplanation language readingLevel hl hc hf
  , mermaid := fallbackMermaid hl hc
  , trace := fallbackTrace
  , quizzes := fallbackQuizzes hl hc }

/-- The fixed mock bundle returned by `callLLM` when no model
credential is configured (the development-mode path of the source). -/
def mockResponse (language : String) : LLMResponse :=
  { explanation := "This " ++ language ++ " code demonstrates key programming concepts. It uses variables to store data and control structures to manage program flow. The logic is structured to handle the main use case efficiently."
  , mermaid := "graph TD\n    A[Start] --> B[Process Input]\n    B --> C[Apply Logic]\n    C --> D[Generate Output]\n    D --> E[End]"
  , trace :=
    { input := "sample input"
    , steps :=
      [ { line := 1, vars := [("x", JVal.num 1), ("y", JVal.num 2)] }
      , { line := 2, vars := [("x", JVal.num 1), ("y", JVal.num 2), ("result", JVal.num 3)] } ] }
  , quizzes :=
    [ { question := "What is the main purpose of this code?"
      , choices := ["Process data", "Create UI", "Manage files", "Handle network"]
      , answer := "Process data"
      , hint := "Look at the main operations"
      , difficulty := "easy" }
    , { question := "Which concept is most important here?"
      , choices := ["Variables", "Networks", "Graphics", "Audio"]
      , answer := "Variables"
      , hint := "Think about data storage"
      , difficulty := "medium" }
    , { question := "What would this code output with input 'test'?"
      , choices := ["test", "TEST", "error", "null"]
      , answer := "test"
      , hint := "Trace through the logic"
      , difficulty := "hard" } ] }

/-- JSON encoding of a scalar trace value. -/
def JVal.toJson : JVal → Json
  | .num n => .num n
  | .bool b => .bool b
  | .str s => .str s

/-- JSON encoding of one trace step. -/
def encodeTraceStep (ts : TraceStep) : Json :=
  .obj [("line", .num ts.line), ("vars", .obj (ts.vars.map fun p => (p.1, p.2.toJson)))]

/-- JSON encoding of a trace object. -/
def encodeTrace (t : Trace) : Json :=
  .obj [("input", .str t.input), ("steps", .arr (t.steps.map encodeTraceStep))]

/-- JSON encoding of one quiz item. -/
def encodeQuiz (q : Quiz) : Json :=
  .obj [ ("question", .str q.question)
       , ("choices", .arr (q.choices.map .str))
       , ("answer", .str q.answer)
       , ("hint", .str q.hint)
       , ("difficulty", .str q.difficulty) ]

/-- JSON encoding of a content bundle, used to place the bundles that
`callLLM` builds itself on the same dynamic level as the value that
`JSON.parse(content)` yields on the model path. -/
def encodeBundle (b : LLMResponse) : Json :=
  .obj [ ("explanation", .str b.explanation)
       , ("mermaid", .str b.mermaid)
       , ("trace", encodeTrace b.trace)
       , ("quizzes", .arr (b.quizzes.map encodeQuiz)) ]

/-- Outcome of the external model call inside the `try` block of
`callLLM`. Every constructor but `content` corresponds to a path that
throws and lands in the `catch`: a network exception from `fetch`, a
non-success HTTP status (the explicit `throw`), an envelope that fails
`response.json()` or lacks `choices[0].message.content`, or a content
string rejected by `JSON.parse`. `content j` is the case where
`JSON.parse(content)` succeeds with value `j`. -/
inductive LLMOutcome where
  | networkThrow
  | badStatus (status : Nat)
  | badEnvelope
  | contentNotJson
  | content (j : Json)

/-- Environment of `callLLM`: the optional `OPENAI_API_KEY` and the
outcome of the single external call. -/
structure LLMEnv where
  openaiKey : Option String
  outcome : LLMOutcome

/-- The model-backed generator `callLLM` of the source. With no key it
returns the mock bundle. Otherwise every throwing path of the `try`
block is answered by the heuristic fallback, while a successfully
parsed content value is returned as-is, without shape validation. -/
def callLLM (env : LLMEnv) (code language readingLevel : String) : Json :=
  match env.openaiKey with
  | none => encodeBundle (mockResponse language)
  | some _ =>
    match env.outcome with
    | .content j => j
    | _ => encodeBundle (generateFallbackResponse code language readingLevel)

/-- A model-call outcome counts as a failure when it takes the `catch`
path of `callLLM` (everything except a successfully parsed content). -/
def LLMOutcome.isFailure : LLMOutcome → Bool
  | .content _ => false
  | _ => true

/-- One row of the `snippets` table. -/
structure SnippetRow where
  id : String
  owner : String
  title : String
  language : String
  code : String
  status : String
  explanation : Option String
  mermaid_diagram : Option String
  trace_table : Option Trace
deriving DecidableEq, Repr

/-- One row of the `quizzes` table; also the shape of the quiz records
placed in the response body (store-assigned or synthesized ids). -/
structure QuizRow where
  id : String
  snippet_id : String
  question : String
  choices : List String
  answer : String
  hint : String
  difficulty : String
deriving DecidableEq, Repr

/-- The two tables of the external store. -/
structure Store where
  snippets : List SnippetRow
  quizzes : List QuizRow
deriving DecidableEq, Repr

/-- Outcome of one awaited store call: the promise rejects (`throws`),
the call resolves with an error object (`errs`), or it succeeds. -/
inductive StoreCallOutcome where
  | throws
  | errs
  | ok
deriving DecidableEq, Repr

/-- The snippet object of a response body: either a full row as
returned by the store (`.select().single()`), or the inline object the
source builds from the in-memory bundle on the fallback branches. -/
inductive SnippetOut where
  | row (r : SnippetRow)
  | inline (id : String) (explanation : String) (mermaid : String) (tr : Trace) (status : String)
deriving DecidableEq, Repr

/-- The `status` value the response body reports for its snippet. -/
def SnippetOut.statusStr : SnippetOut → String
  | .row r => r.status
  | .inline _ _ _ _ s => s

/-- A response body: the OPTIONS empty body, an error object, or the
success shape with a snippet and a quiz list. -/
inductive RespBody where
  | empty
  | error (msg : String)
  | success (snippet : SnippetOut) (quizzes : List QuizRow)
deriving DecidableEq, Repr

/-- Quiz records of a response body (empty for non-success bodies). -/
def RespBody.quizzesOf : RespBody → List QuizRow
  | .success _ qs => qs
  | _ => []

/-- Identifiers of the quiz records of a response body. -/
def RespBody.quizIdList (b : RespBody) : List String :=
  b.quizzesOf.map QuizRow.id

/-- An HTTP response: status code plus body. -/
structure HttpResponse where
  status : Nat
  body : RespBody
deriving DecidableEq, Repr

/-- An inbound request as the handler sees it: method, auth header,
whether `req.json()` parses, and the parsed body fields (absent fields
are `none`). -/
structure Request where
  method : String
  authHeader : Option String
  bodyOk : Bool
  snippet_id : Option String
  title : Option String
  language : Option String
  code : Option String
  reading_level : Option String
deriving DecidableEq, Repr

/-- JavaScript falsiness of an optional string field: `undefined`,
`null` and the empty string are falsy. -/
def falsy (o : Option String) : Bool :=
  match o with
  | none => true
  | some s => s == ""

/-- Extract a present string (used after a falsiness check). -/
def getStr (o : Option String) : String := o.getD ""

/-- The world a single request executes against: the authentication
answer for the presented token, the store contents, the id the store
would assign to an inserted snippet, the outcome of each awaited store
call, the ids the store assigns to inserted quizzes, and the content
bundle produced by the model path (`callLLM` always yields a value;
`serve` is modeled on executions where that value has the
`LLMResponse` shape, which covers the mock, the heuristic fallback and
well-formed model output). -/
structure World where
  authUser : Option String
  store : Store
  freshId : String
  updateOutcome : StoreCallOutcome
  insertOutcome : StoreCallOutcome
  bundle : LLMResponse
  resultWriteOutcome : StoreCallOutcome
  quizDeleteOutcome : StoreCallOutcome
  quizInsertOutcome : StoreCallOutcome
  assignQuizId : Nat → String

/-- The initial `snippets` update of the handler: sets title (when the
field is present in the request body), language, code and
`status = "pending"` on rows matching both the id and the owner. -/
def applyPendingUpdate (st : Store) (sid uid : String) (title : Option String) (language code : String) : Store :=
  { st with snippets := st.snippets.map fun r =>
      if r.id == sid && r.owner == uid then
        { r with title := title.getD r.title, language := language, code := code, status := "pending" }
      else r }

/-- The row inserted for a request without a usable `snippet_id`. -/
def newSnippetRow (w : World) (req : Request) (uid : String) : SnippetRow :=
  { id := w.freshId
  , owner := uid
  , title := if falsy req.title then "Untitled" else getStr req.title
  , language := getStr req.language
  , code := getStr req.code
  , status := "pending"
  , explanation := none
  , mermaid_diagram := none
  , trace_table := none }

/-- The result write of the handler: sets the three result fields and
`status = "ready"` on every row whose id matches. The source filters
this update only by `.eq("id", snippetId)`, with no owner condition. -/
def applyResultWrite (st : Store) (sid : String) (b : LLMResponse) : Store :=
  { st with snippets := st.snippets.map fun r =>
      if r.id == sid then
        { r with explanation := some b.explanation
               , mermaid_diagram := some b.mermaid
               , trace_table := some b.trace
               , status := "ready" }
      else r }

/-- Deletion of all quiz rows associated with a snippet id. -/
def deleteQuizzes (st : Store) (sid : String) : Store :=
  { st with quizzes := st.quizzes.filter fun q => !(q.snippet_id == sid) }

/-- Quiz records synthesized from the in-memory bundle with temporary
ids `temp_<index>` (the `llmResponse.quizzes.map` of the source). -/
def tempQuizRows (sid : String) (qs : List Quiz) : List QuizRow :=
  qs.enum.map fun p =>
    { id := "temp_" ++ toString p.1
    , snippet_id := sid
    , question := p.2.question
    , choices := p.2.choices
    , answer := p.2.answer
    , hint := p.2.hint
    , difficulty := p.2.difficulty }

/-- Quiz rows as inserted into the store, with store-assigned ids. -/
def insertedQuizRows (assign : Nat → String) (sid : String) (qs : List Quiz) : List QuizRow :=
  qs.enum.map fun p =>
    { id := assign p.1
    , snippet_id := sid
    , question := p.2.question
    , choices := p.2.choices
    , answer := p.2.answer
    , hint := p.2.hint
    , difficulty := p.2.difficulty }

/-- Body returned when the result write reports an error (source lines
around `snippetUpdateError`): inline snippet built from the bundle with
literal status `"ready"`, and temporary quiz ids. -/
def tempBody (sid : String) (b : LLMResponse) : RespBody :=
  .success (.inline sid b.explanation b.mermaid b.trace "ready") (tempQuizRows sid b.quizzes)

/-- Identifier written by the `catch (dbError)` handler: the source
writes `snippetId || "temp"`. -/
def dbErrorId (sid : String) : String :=
  if sid == "" then "temp" else sid

/-- Body returned by the `catch (dbError)` handler: like `tempBody` but
with the `snippetId || "temp"` identifiers. -/
def dbErrorBody (sid : String) (b : LLMResponse) : RespBody :=
  .success (.inline (dbErrorId sid) b.explanation b.mermaid b.trace "ready")
    (tempQuizRows (dbErrorId sid) b.quizzes)

/-- The heuristic bundle for the placeholder inputs of the top-level
`catch` (the caught error object carries no `requestBody` field, so
all three `||` defaults are always taken). -/
def placeholderBundle : LLMResponse :=
  generateFallbackResponse "Sample code" "javascript" "cs1"

/-- Quiz records of the top-level fallback response, with synthetic
`fallback_<index>` identifiers. -/
def fallbackIdQuizRows (qs : List Quiz) : List QuizRow :=
  qs.enum.map fun p =>
    { id := "fallback_" ++ toString p.1
    , snippet_id := "fallback"
    , question := p.2.question
    , choices := p.2.choices
    , answer := p.2.answer
    , hint := p.2.hint
    , difficulty := p.2.difficulty }

/-- The last-resort response of the top-level `catch`. -/
def topFallback (st : Store) : HttpResponse × Store :=
  ( { status := 200
    , body := .success
        (.inline "fallback" placeholderBundle.explanation placeholderBundle.mermaid placeholderBundle.trace "ready")
        (fallbackIdQuizRows placeholderBundle.quizzes) }
  , st )

/-- Store state after the quiz delete call: the source never inspects
the delete result, so an error object (`errs`) is silently ignored and
leaves the rows in place; only a successful delete removes them. -/
def afterDelete (d : StoreCallOutcome) (st : Store) (sid : String) : Store :=
  if d == .ok then deleteQuizzes st sid else st

/-- The quiz-replace phase (inner `try` of the handler), entered after
a successful result write with `row` as the updated snippet. A throw
of the delete or the insert is answered with an empty quiz list; an
insert that resolves with an error object is answered with temporary
quiz ids; a delete that resolves with an error object is ignored by
the source, so execution proceeds to the insert without removing the
old rows. -/
def quizPhase (w : World) (sid : String) (row : SnippetRow) (st : Store) : HttpResponse × Store :=
  match w.quizDeleteOutcome with
  | .throws => ({ status := 200, body := .success (.row row) [] }, st)
  | d =>
    match w.quizInsertOutcome with
    | .throws => ({ status := 200, body := .success (.row row) [] }, afterDelete d st sid)
    | .errs =>
      ({ status := 200, body := .success (.row row) (tempQuizRows sid w.bundle.quizzes) }
      , afterDelete d st sid)
    | .ok =>
      ({ status := 200
       , body := .success (.row row) (insertedQuizRows w.assignQuizId sid w.bundle.quizzes) }
      , { afterDelete d st sid with
          quizzes := (afterDelete d st sid).quizzes ++ insertedQuizRows w.assignQuizId sid w.bundle.quizzes })

/-- The result-write phase (outer `try` of the handler). An error
object from the update, or a `.single()` that does not see exactly one
matching row, takes the `snippetUpdateError` branch; a throw takes the
`catch (dbError)` branch; success hands the updated row to the quiz
phase. -/
def persistPhase (w : World) (sid : String) (st : Store) : HttpResponse × Store :=
  match w.resultWriteOutcome with
  | .throws => ({ status := 200, body := dbErrorBody sid w.bundle }, st)
  | .errs => ({ status := 200, body := tempBody sid w.bundle }, st)
  | .ok =>
    match (applyResultWrite st sid w.bundle).snippets.filter (fun r => r.id == sid) with
    | [row] => quizPhase w sid row (applyResultWrite st sid w.bundle)
    | _ => ({ status := 200, body := tempBody sid w.bundle }, applyResultWrite st sid w.bundle)

/-- The snippet identifier a request resolves to: the supplied
`snippet_id` when truthy, else the store-assigned id of the insert. -/
def resolvedId (w : World) (req : Request) : String :=
  if falsy req.snippet_id then w.freshId else getStr req.snippet_id

/-- The store as it stands after the snippet upsert step succeeds. -/
def storeAfterUpsert (w : World) (req : Request) (uid : String) : Store :=
  if falsy req.snippet_id then
    { w.store with snippets := w.store.snippets ++ [newSnippetRow w req uid] }
  else
    applyPendingUpdate w.store (getStr req.snippet_id) uid req.title (getStr req.language) (getStr req.code)

/-- The request handler of the source (`serve` callback): CORS
preflight, the authorization and validation gate, the snippet upsert
(each failure mode answered as in the source: an error object yields a
500, a throw reaches the top-level catch), then the persistence
phases. Returns the response together with the final store. -/
def serve (w : World) (req : Request) : HttpResponse × Store :=
  if req.method == "OPTIONS" then ({ status := 200, body := .empty }, w.store)
  else if falsy req.authHeader then
    ({ status := 401, body := .error "Missing authorization header" }, w.store)
  else
    match w.authUser with
    | none => ({ status := 401, body := .error "Invalid token" }, w.store)
    | some userId =>
      if !req.bodyOk then topFallback w.store
      else if falsy req.code || falsy req.language then
        ({ status := 400, body := .error "Missing required fields: code, language" }, w.store)
      else if falsy req.snippet_id then
        match w.insertOutcome with
        | .throws => topFallback w.store
        | .errs => ({ status := 500, body := .error "Failed to create snippet" }, w.store)
        | .ok => persistPhase w (resolvedId w req) (storeAfterUpsert w req userId)
      else
        match w.updateOutcome with
        | .throws => topFallback w.store
        | .errs => ({ status := 500, body := .error "Failed to update snippet" }, w.store)
        | .ok => persistPhase w (resolvedId w req) (storeAfterUpsert w req userId)

/-- Occurrence of `pat` as a contiguous sub-list of `cs`. -/
def hasSubList : List Char → List Char → Bool
  | pat, [] => pat.isPrefixOf []
  | pat, c :: rest => pat.isPrefixOf (c :: rest) || hasSubList pat rest

/-- Occurrence of `pat` as a substring of `s`. -/
def containsSub (s pat : String) : Bool :=
  hasSubList pat.data s.data

/-- Invariant of one quiz item: the answer is among the choices, and
the choices are 4 pairwise distinct entries. -/
def nodupStrings : List String → Bool
  | [] => true
  | x :: xs => !xs.contains x && nodupStrings xs

/-- Decidable form of the per-quiz invariant of the specification. -/
def quizInvariant (q : Quiz) : Bool :=
  q.choices.contains q.answer && q.choices.length == 4 && nodupStrings q.choices

/-- Field lookup in a JSON object field list. -/
def jfield (fields : List (String × Json)) (k : String) : Option Json :=
  (fields.find? fun p => p.1 == k).map fun p => p.2

/-- Modelled from the spec: the ContentBundle shape that section 4.2
requires of a parsed model response (an object with string
`explanation` and `mermaid`, an object `trace` and an array
`quizzes`). The source performs no such validation after
`JSON.parse(content)`. -/
def isBundleShapedJson : Json → Bool
  | .obj fields =>
    (match jfield fields "explanation" with | some (.str _) => true | _ => false)
    && (match jfield fields "mermaid" with | some (.str _) => true | _ => false)
    && (match jfield fields "trace" with | some (.obj _) => true | _ => false)
    && (match jfield fields "quizzes" with | some (.arr _) => true | _ => false)
  | _ => false

/-- A quiz row present in the store before the example requests run. -/
def sampleQuizRow : QuizRow :=
  { id := "q9", snippet_id := "s1", question := "Q", choices := ["a", "b"]
  , answer := "a", hint := "h", difficulty := "easy" }

/-- A snippet row present in the store, owned by user `u1`. -/
def sampleSnippetRow : SnippetRow :=
  { id := "s1", owner := "u1", title := "t", language := "py", code := "old code"
  , status := "ready", explanation := some "old", mermaid_diagram := none, trace_table := none }

/-- Store contents used by the concrete example executions. -/
def sampleStore : Store :=
  { snippets := [sampleSnippetRow], quizzes := [sampleQuizRow] }

/-- A well-formed three-quiz bundle used by the example executions. -/
def sampleBundle : LLMResponse :=
  generateFallbackResponse "for i" "python" "12"

/-- Baseline world: authentication succeeds for `u1` and every store
call succeeds. -/
def baseWorld : World :=
  { authUser := some "u1"
  , store := sampleStore
  , freshId := "new1"
  , updateOutcome := .ok
  , insertOutcome := .ok
  , bundle := sampleBundle
  , resultWriteOutcome := .ok
  , quizDeleteOutcome := .ok
  , quizInsertOutcome := .ok
  , assignQuizId := fun i => "q" ++ toString i }

/-- Baseline request: a valid update request for snippet `s1`. -/
def baseRequest : Request :=
  { method := "POST"
  , authHeader := some "Bearer tok"
  , bodyOk := true
  , snippet_id := some "s1"
  , title := some "T2"
  , language := some "python"
  , code := some "for i"
  , reading_level := some "12" }

/-- World in which the result write resolves with an error object. -/
def cw3 : World := { baseWorld with resultWriteOutcome := .errs }

/-- World in which the quiz delete call throws. -/
def cw4 : World := { baseWorld with quizDeleteOutcome := .throws }

/-- World in which the quiz insert resolves with an error object. -/
def cw4b : World := { baseWorld with quizInsertOutcome := .errs }

/-- World in which the authenticated caller is not the owner of the
snippet row named by the request. -/
def attackWorld : World := { baseWorld with authUser := some "attacker" }

/-- The `s1` row after `baseRequest` runs against `baseWorld`: the
pending update applies (owner matches), then the result write applies. -/
def updatedS1 : SnippetRow :=
  { id := "s1", owner := "u1", title := "T2", language := "python", code := "for i"
  , status := "ready", explanation := some sampleBundle.explanation
  , mermaid_diagram := some sampleBundle.mermaid, trace_table := some sampleBundle.trace }

/-- The `s1` row after `baseRequest` runs against `attackWorld`: the
owner-scoped pending update matches nothing, but the result write
(filtered only by id) still rewrites the victim row. -/
def victimRowAfter : SnippetRow :=
  { id := "s1", owner := "u1", title := "t", language := "py", code := "old code"
  , status := "ready", explanation := some sampleBundle.explanation
  , mermaid_diagram := some sampleBundle.mermaid, trace_table := some sampleBundle.trace }

/-! Helper lemmas. -/

/-- Appending the empty string is the identity. -/
theorem str_append_empty (s : String) : s ++ "" = s := by
  cases s with
  | mk data => show String.mk (data ++ []) = String.mk data
               rw [List.append_nil]

/-- The quizzes of the heuristic bundle depend only on the two
signals. -/
theorem generateFallbackResponse_quizzes (code language readingLevel : String) :
    (generateFallbackResponse code language readingLevel).quizzes
      = fallbackQuizzes (hasLoops code) (hasConditionals code) := rfl

/-- The diagram of the heuristic bundle depends only on the two
signals. -/
theorem generateFallbackResponse_mermaid (code language readingLevel : String) :
    (generateFallbackResponse code language readingLevel).mermaid
      = fallbackMermaid (hasLoops code) (hasConditionals code) := rfl

/-! Claim theorems for the heuristic generator. -/

/-- Claim C6: for every `(code, language, readingLevel)` input, the
heuristic generator returns a bundle with exactly 3 quizzes, and each
quiz answer is a member of its 4 pairwise-distinct choices. -/
theorem c6_quiz_invariants (code language readingLevel : String) :
    (generateFallbackResponse code language readingLevel).quizzes.length = 3
    ∧ (generateFallbackResponse code language readingLevel).quizzes.all quizInvariant = true := by
  rw [generateFallbackResponse_quizzes]
  cases hasLoops code <;> cases hasConditionals code <;> exact ⟨rfl, by decide⟩

/-- Claim C6 witness: the invariant at a concrete input. -/
theorem c6_witness :
    (generateFallbackResponse "for (i = 0;;) if (x) y();" "javascript" "15").quizzes.length = 3
    ∧ (generateFallbackResponse "for (i = 0;;) if (x) y();" "javascript" "15").quizzes.all quizInvariant = true :=
  c6_quiz_invariants "for (i = 0;;) if (x) y();" "javascript" "15"

/-- Claim C7: the diagram is a function of `(hasLoops, hasConditionals)`
alone, and the four signal combinations select the loop-with-branch,
loop, branch and straight-line templates. -/
theorem c7_diagram_function_of_signals :
    (∀ code1 language1 rl1 code2 language2 rl2,
        hasLoops code1 = hasLoops code2 → hasConditionals code1 = hasConditionals code2 →
        (generateFallbackResponse code1 language1 rl1).mermaid
          = (generateFallbackResponse code2 language2 rl2).mermaid)
    ∧ (generateFallbackResponse "for (i=0;;) if (x) y();" "a" "12").mermaid
        = "graph TD\n    A[Start] --> B[Initialize Variables]\n    B --> C[Loop Condition]\n    C -->|True| D\x7bCheck Condition\x7d\n    D -->|Met| E[Execute Action A]\n    D -->|Not Met| F[Execute Action B]\n    E --> G[Update Variables]\n    F --> G\n    G --> C\n    C -->|False| H[End]"
    ∧ (generateFallbackResponse "while (t) x += 1;" "b" "15").mermaid
        = "graph TD\n    A[Start] --> B[Initialize Counter]\n    B --> C[Check Loop Condition]\n    C -->|True| D[Execute Loop Body]\n    D --> E[Update Counter]\n    E --> C\n    C -->|False| F[End]"
    ∧ (generateFallbackResponse "if (x) y();" "c" "cs1").mermaid
        = "graph TD\n    A[Start] --> B[Check Condition]\n    B -->|True| C[Execute Branch A]\n    B -->|False| D[Execute Branch B]\n    C --> E[End]\n    D --> E"
    ∧ (generateFallbackResponse "x = y + 1;" "d" "pro").mermaid
        = "graph TD\n    A[Start] --> B[Process Input]\n    B --> C[Apply Logic]\n    C --> D[Generate Output]\n    D --> E[End]" := by
  refine ⟨?_, by decide, by decide, by decide, by decide⟩
  intro code1 language1 rl1 code2 language2 rl2 h1 h2
  rw [generateFallbackResponse_mermaid, generateFallbackResponse_mermaid, h1, h2]

/-- Claim C7 witness: two inputs with identical signal pairs get the
same diagram, regardless of language and reading level. -/
theorem c7_witness :
    (generateFallbackResponse "for i" "python" "12").mermaid
      = (generateFallbackResponse "FOR J" "java" "pro").mermaid :=
  c7_diagram_function_of_signals.1 "for i" "python" "12" "FOR J" "java" "pro" (by decide) (by decide)

/-- Claim C8 counterexample: at reading level `15` (the teen register)
the source appends the functions clause whenever `hasFunctions` is
true, so the teen register does contain a functions clause. -/
theorem c8_counterexample :
    (generateFallbackResponse "def f(x): return x" "python" "15").explanation
      = "This python code demonstrates fundamental programming concepts. It processes input data through a series of logical operations to produce a desired output. Functions help organize the code into reusable blocks." := by
  decide

/-- Claim C8 (amended): each register extends its base sentence with at
most one clause per true signal in the order loops, conditionals,
functions; the functions clause is appended in the teen and technical
registers, and the child register ignores `hasFunctions`. -/
theorem c8_amended_clause_order (code language readingLevel : String) (hl hc hf : Bool) :
    (generateFallbackResponse code language readingLevel).explanation
      = fallbackExplanation language readingLevel (hasLoops code) (hasConditionals code) (hasFunctions code)
    ∧ fallbackExplanation language "12" hl hc hf
      = "This " ++ language ++ " code is like following a recipe! It takes some information (ingredients) and follows step-by-step instructions to create a result. The computer reads each line and does what it says, just like you would follow cooking instructions."
        ++ (if hl then " Some steps say 'repeat this part until something happens' - that's like stirring until the mixture is smooth." else "")
        ++ (if hc then " Other steps say 'if this, then do that' - like checking if the cake is done before taking it out." else "")
    ∧ fallbackExplanation language "15" hl hc hf
      = "This " ++ language ++ " code demonstrates fundamental programming concepts. It processes input data through a series of logical operations to produce a desired output."
        ++ (if hl then " It uses loops to repeat certain operations efficiently." else "")
        ++ (if hc then " Conditional statements help the program make decisions based on different scenarios." else "")
        ++ (if hf then " Functions help organize the code into reusable blocks." else "")
    ∧ fallbackExplanation language "pro" hl hc hf
      = "This " ++ language ++ " code implements a computational algorithm using standard programming constructs. The implementation follows best practices for readability and maintainability."
        ++ (if hl then " Iterative constructs handle repetitive operations with appropriate termination conditions." else "")
        ++ (if hc then " Conditional logic enables branching behavior based on runtime evaluation." else "")
        ++ (if hf then " Modular function design promotes code reusability and separation of concerns." else "") := by
  refine ⟨rfl, ?_, ?_, ?_⟩
  all_goals cases hl <;> cases hc <;> cases hf <;>
    simp [fallbackExplanation, str_append_empty, String.append_assoc]

/-- Claim C9: with no model credential configured, `callLLM` returns
the encoded mock bundle for every call outcome; its explanation
contains the development-mode phrase, and the mock bundle differs from
the heuristic bundle for the same inputs. -/
theorem c9_mock_distinct_from_heuristic (outcome : LLMOutcome) :
    callLLM { openaiKey := none, outcome := outcome } "for i in range(10): print(i)" "python" "12"
      = encodeBundle (mockResponse "python")
    ∧ containsSub (mockResponse "python").explanation "variables to store data and control structures" = true
    ∧ mockResponse "python" ≠ generateFallbackResponse "for i in range(10): print(i)" "python" "12" := by
  refine ⟨rfl, by decide, by decide⟩

/-- Claim C1 counterexample: with a credential configured and a model
reply whose content parses as the JSON number 42 — valid JSON without
the ContentBundle shape — `callLLM` returns that value unvalidated,
not the heuristic bundle. -/
theorem c1_counterexample :
    callLLM { openaiKey := some "sk-test", outcome := .content (Json.num 42) } "x = 1" "python" "cs1"
      = Json.num 42
    ∧ isBundleShapedJson (Json.num 42) = false
    ∧ callLLM { openaiKey := some "sk-test", outcome := .content (Json.num 42) } "x = 1" "python" "cs1"
      ≠ encodeBundle (generateFallbackResponse "x = 1" "python" "cs1") := by
  refine ⟨rfl, rfl, ?_⟩
  intro h
  exact Json.noConfusion h

/-- Claim C1 (amended): with a credential configured, every failing
call outcome — network exception, non-success status, bad envelope, or
content that is not valid JSON — yields exactly the heuristic bundle;
content that parses as JSON is returned as-is without shape checks. -/
theorem c1_amended_failure_fallback (key code language readingLevel : String) (o : LLMOutcome)
    (h : o.isFailure = true) :
    callLLM { openaiKey := some key, outcome := o } code language readingLevel
      = encodeBundle (generateFallbackResponse code language readingLevel) := by
  cases o with
  | content j => exact absurd h (by simp [LLMOutcome.isFailure])
  | networkThrow => rfl
  | badStatus s => rfl
  | badEnvelope => rfl
  | contentNotJson => rfl

/-- Claim C1 witness: the amended theorem applied at a concrete
non-success HTTP status. -/
theorem c1_amended_witness :
    (LLMOutcome.badStatus 500).isFailure = true
    ∧ callLLM { openaiKey := some "sk-test-2", outcome := .badStatus 500 } "a = 1" "python" "cs1"
      = encodeBundle (generateFallbackResponse "a = 1" "python" "cs1") :=
  ⟨rfl, c1_amended_failure_fallback "sk-test-2" "a = 1" "python" "cs1" (.badStatus 500) rfl⟩

/-! Helper lemmas about the handler. -/

/-- Every quiz-phase response carries HTTP status 200. -/
theorem quizPhase_status (w : World) (sid : String) (row : SnippetRow) (st : Store) :
    (quizPhase w sid row st).1.status = 200 := by
  unfold quizPhase
  split
  · rfl
  · split <;> rfl

/-- Every persist-phase response carries HTTP status 200. -/
theorem persistPhase_status (w : World) (sid : String) (st : Store) :
    (persistPhase w sid st).1.status = 200 := by
  unfold persistPhase
  split
  · rfl
  · rfl
  · split
    · apply quizPhase_status
    · rfl

/-- The snippet upsert step never touches the quizzes table. -/
theorem storeAfterUpsert_quizzes (w : World) (req : Request) (uid : String) :
    (storeAfterUpsert w req uid).quizzes = w.store.quizzes := by
  unfold storeAfterUpsert
  split <;> rfl

/-- Temporary identifiers synthesized for a three-quiz bundle. -/
theorem tempQuizRows_ids (sid : String) (qs : List Quiz) (h : qs.length = 3) :
    (tempQuizRows sid qs).map QuizRow.id = ["temp_0", "temp_1", "temp_2"] := by
  obtain ⟨a, b, c, rfl⟩ := List.length_eq_three.mp h
  show ["temp_" ++ toString 0, "temp_" ++ toString 1, "temp_" ++ toString 2]
      = ["temp_0", "temp_1", "temp_2"]
  decide

/-- Identifier list of a `tempBody` response for a three-quiz bundle. -/
theorem tempBody_ids (sid : String) (b : LLMResponse) (h : b.quizzes.length = 3) :
    (tempBody sid b).quizIdList = ["temp_0", "temp_1", "temp_2"] :=
  tempQuizRows_ids sid b.quizzes h

/-- Past the authorization/validation gate, with a successfully
resolved snippet identity, the handler is exactly the persist phase on
the upserted store. -/
theorem serve_reaches_persist (w : World) (req : Request) (uid : String)
    (hm : (req.method == "OPTIONS") = false)
    (hauth : falsy req.authHeader = false)
    (hu : w.authUser = some uid)
    (hb : req.bodyOk = true)
    (hcode : falsy req.code = false)
    (hlang : falsy req.language = false)
    (hup : (if falsy req.snippet_id then w.insertOutcome else w.updateOutcome) = StoreCallOutcome.ok) :
    serve w req = persistPhase w (resolvedId w req) (storeAfterUpsert w req uid) := by
  unfold serve
  simp only [hm, hauth, hu, hb, hcode, hlang, Bool.false_eq_true, Bool.not_true, Bool.or_self,
    if_false, ite_false]
  by_cases hs : falsy req.snippet_id = true
  · simp only [hs, if_true, ite_true] at hup ⊢
    simp only [hup]
  · rw [Bool.not_eq_true] at hs
    simp only [hs, Bool.false_eq_true, if_false, ite_false] at hup ⊢
    simp only [hup]

/-- A row selected by the post-update filter has status `ready`. -/
theorem resultWrite_filter_ready (st : Store) (sid : String) (b : LLMResponse) (row : SnippetRow)
    (h : ((applyResultWrite st sid b).snippets.filter fun r => r.id == sid) = [row]) :
    row.status = "ready" := by
  have hmem : row ∈ (applyResultWrite st sid b).snippets.filter fun r => r.id == sid := by
    rw [h]; exact List.mem_singleton_self row
  rw [List.mem_filter] at hmem
  obtain ⟨hmem1, hid⟩ := hmem
  have hmap : row ∈ st.snippets.map fun r =>
      if r.id == sid then
        { r with explanation := some b.explanation
               , mermaid_diagram := some b.mermaid
               , trace_table := some b.trace
               , status := "ready" }
      else r := hmem1
  rw [List.mem_map] at hmap
  obtain ⟨r, hr, hfr⟩ := hmap
  by_cases hcond : (r.id == sid) = true
  · rw [if_pos hcond] at hfr
    rw [← hfr]
  · rw [if_neg hcond] at hfr
    subst hfr
    exact absurd hid hcond

/-- Every success body built by the quiz phase reports the status of
the updated row. -/
theorem quizPhase_ready (w : World) (sid : String) (row : SnippetRow) (st : Store)
    (hr : row.status = "ready") (s : SnippetOut) (qs : List QuizRow)
    (h : (quizPhase w sid row st).1.body = RespBody.success s qs) : s.statusStr = "ready" := by
  unfold quizPhase at h
  split at h
  · injection h with h1 h2
    subst h1
    exact hr
  · split at h <;> (injection h with h1 h2; subst h1; exact hr)

/-- Every success body built by the persist phase reports snippet
status `ready`. -/
theorem persistPhase_ready (w : World) (sid : String) (st : Store) (s : SnippetOut) (qs : List QuizRow)
    (h : (persistPhase w sid st).1.body = RespBody.success s qs) : s.statusStr = "ready" := by
  unfold persistPhase at h
  split at h
  · unfold dbErrorBody at h
    injection h with h1 h2
    subst h1
    rfl
  · unfold tempBody at h
    injection h with h1 h2
    subst h1
    rfl
  · split at h
    next row heq =>
      exact quizPhase_ready w sid row _ (resultWrite_filter_ready st sid w.bundle row heq) s qs h
    next =>
      unfold tempBody at h
      injection h with h1 h2
      subst h1
      rfl

/-- Every success body of the top-level fallback reports status
`ready`. -/
theorem topFallback_ready (st : Store) (s : SnippetOut) (qs : List QuizRow)
    (h : (topFallback st).1.body = RespBody.success s qs) : s.statusStr = "ready" := by
  unfold topFallback at h
  injection h with h1 h2
  subst h1
  rfl

/-! Claim theorems for the handler. -/

/-- Claim C2 counterexample: a request that passes the authorization
and validation gate still receives HTTP 500 when the snippet update
step resolves with an error object. -/
theorem c2_counterexample :
    falsy baseRequest.authHeader = false
    ∧ ({ baseWorld with updateOutcome := .errs } : World).authUser = some "u1"
    ∧ falsy baseRequest.code = false
    ∧ falsy baseRequest.language = false
    ∧ (serve { baseWorld with updateOutcome := .errs } baseRequest).1.status = 500 :=
  ⟨rfl, rfl, rfl, rfl, rfl⟩

/-- Claim C2 (amended): for every request that passes the
authorization and validation checks and whose snippet create/update
step does not resolve with an error object, the handler returns HTTP
200; no later store failure, model failure or thrown exception in the
modeled outcomes produces an error response. -/
theorem c2_amended_status_200 (w : World) (req : Request) (uid : String)
    (hauth : falsy req.authHeader = false)
    (hu : w.authUser = some uid)
    (hb : req.bodyOk = true)
    (hcode : falsy req.code = false)
    (hlang : falsy req.language = false)
    (hup : (if falsy req.snippet_id then w.insertOutcome else w.updateOutcome) ≠ StoreCallOutcome.errs) :
    (serve w req).1.status = 200 := by
  unfold serve
  by_cases hm : (req.method == "OPTIONS") = true
  · simp only [hm, if_true, ite_true]
  · rw [Bool.not_eq_true] at hm
    simp only [hm, hauth, hu, hb, hcode, hlang, Bool.false_eq_true, Bool.not_true, Bool.or_self,
      if_false, ite_false]
    by_cases hs : falsy req.snippet_id = true
    · simp only [hs, if_true, ite_true] at hup ⊢
      cases hins : w.insertOutcome
      · rfl
      · exact absurd hins hup
      · apply persistPhase_status
    · rw [Bool.not_eq_true] at hs
      simp only [hs, Bool.false_eq_true, if_false, ite_false] at hup ⊢
      cases hupd : w.updateOutcome
      · rfl
      · exact absurd hupd hup
      · apply persistPhase_status

/-- Claim C2 witness: the amended theorem at a concrete happy-path
world. -/
theorem c2_amended_witness : (serve baseWorld baseRequest).1.status = 200 :=
  c2_amended_status_200 baseWorld baseRequest "u1" rfl rfl rfl rfl rfl (by decide)

/-- Synthesized quiz rows for a three-quiz bundle are never empty. -/
theorem tempQuizRows_ne_nil (sid : String) (qs : List Quiz) (h : qs.length = 3) :
    tempQuizRows sid qs ≠ [] := by
  obtain ⟨a, b, c, rfl⟩ := List.length_eq_three.mp h
  intro he
  exact List.noConfusion he

/-- Claim C3: when the result write resolves with an error object, the
quizzes table is untouched and the handler answers 200 with the
in-memory bundle and three pairwise-distinct `temp_<index>`
identifiers. -/
theorem c3_result_write_error_temp_ids (w : World) (req : Request) (uid : String)
    (hm : (req.method == "OPTIONS") = false)
    (hauth : falsy req.authHeader = false)
    (hu : w.authUser = some uid)
    (hb : req.bodyOk = true)
    (hcode : falsy req.code = false)
    (hlang : falsy req.language = false)
    (hup : (if falsy req.snippet_id then w.insertOutcome else w.updateOutcome) = StoreCallOutcome.ok)
    (hrw : w.resultWriteOutcome = StoreCallOutcome.errs)
    (h3 : w.bundle.quizzes.length = 3) :
    (serve w req).2.quizzes = w.store.quizzes
    ∧ (serve w req).1.status = 200
    ∧ (serve w req).1.body = tempBody (resolvedId w req) w.bundle
    ∧ (serve w req).1.body.quizIdList = ["temp_0", "temp_1", "temp_2"]
    ∧ (serve w req).1.body.quizIdList.Nodup := by
  rw [serve_reaches_persist w req uid hm hauth hu hb hcode hlang hup]
  have hp : persistPhase w (resolvedId w req) (storeAfterUpsert w req uid)
      = ({ status := 200, body := tempBody (resolvedId w req) w.bundle }, storeAfterUpsert w req uid) := by
    unfold persistPhase
    rw [hrw]
  rw [hp]
  refine ⟨storeAfterUpsert_quizzes w req uid, rfl, rfl, tempBody_ids _ _ h3, ?_⟩
  rw [show ({ status := 200, body := tempBody (resolvedId w req) w.bundle } : HttpResponse).body.quizIdList
      = ["temp_0", "temp_1", "temp_2"] from tempBody_ids _ _ h3]
  decide

/-- Claim C3 witness: the theorem at a concrete failing result
write. -/
theorem c3_witness :
    (serve cw3 baseRequest).2.quizzes = cw3.store.quizzes
    ∧ (serve cw3 baseRequest).1.body.quizIdList = ["temp_0", "temp_1", "temp_2"] := by
  have h := c3_result_write_error_temp_ids cw3 baseRequest "u1" rfl rfl rfl rfl rfl rfl
    (by decide) rfl (by decide)
  exact ⟨h.1, h.2.2.2.1⟩

/-- Claim C4 counterexample: the result write succeeded but the quiz
delete throws, and the handler returns the updated snippet with an
empty quiz list (the `catch` around the quiz phase answers with
`quizzes: []`). -/
theorem c4_counterexample :
    cw4.resultWriteOutcome = StoreCallOutcome.ok
    ∧ (serve cw4 baseRequest).1.body = RespBody.success (SnippetOut.row updatedS1) []
    ∧ (serve cw4 baseRequest).1.body.quizzesOf = [] :=
  ⟨rfl, by decide, by decide⟩

/-- Claim C4 (amended): when the result write succeeds and the quiz
insert resolves with an error object, the handler pairs the updated
snippet with the in-memory quizzes under temporary identifiers and the
quiz list is non-empty; when the delete or insert throws, the handler
instead returns the updated snippet with an empty quiz list. -/
theorem c4_amended_insert_error_temp_ids (w : World) (req : Request) (uid : String) (row : SnippetRow)
    (hm : (req.method == "OPTIONS") = false)
    (hauth : falsy req.authHeader = false)
    (hu : w.authUser = some uid)
    (hb : req.bodyOk = true)
    (hcode : falsy req.code = false)
    (hlang : falsy req.language = false)
    (hup : (if falsy req.snippet_id then w.insertOutcome else w.updateOutcome) = StoreCallOutcome.ok)
    (hrw : w.resultWriteOutcome = StoreCallOutcome.ok)
    (hrow : ((applyResultWrite (storeAfterUpsert w req uid) (resolvedId w req) w.bundle).snippets.filter
        fun r => r.id == resolvedId w req) = [row])
    (hdel : w.quizDeleteOutcome ≠ StoreCallOutcome.throws)
    (hins : w.quizInsertOutcome = StoreCallOutcome.errs)
    (h3 : w.bundle.quizzes.length = 3) :
    (serve w req).1.status = 200
    ∧ (serve w req).1.body
        = RespBody.success (SnippetOut.row row) (tempQuizRows (resolvedId w req) w.bundle.quizzes)
    ∧ (serve w req).1.body.quizIdList = ["temp_0", "temp_1", "temp_2"]
    ∧ (serve w req).1.body.quizzesOf ≠ [] := by
  rw [serve_reaches_persist w req uid hm hauth hu hb hcode hlang hup]
  have hp : persistPhase w (resolvedId w req) (storeAfterUpsert w req uid)
      = quizPhase w (resolvedId w req) row
          (applyResultWrite (storeAfterUpsert w req uid) (resolvedId w req) w.bundle) := by
    unfold persistPhase
    rw [hrw, hrow]
  rw [hp]
  cases hd : w.quizDeleteOutcome with
  | throws => exact absurd hd hdel
  | errs =>
    have hq : quizPhase w (resolvedId w req) row
          (applyResultWrite (storeAfterUpsert w req uid) (resolvedId w req) w.bundle)
        = ({ status := 200
           , body := RespBody.success (SnippetOut.row row) (tempQuizRows (resolvedId w req) w.bundle.quizzes) }
          , afterDelete StoreCallOutcome.errs
              (applyResultWrite (storeAfterUpsert w req uid) (resolvedId w req) w.bundle) (resolvedId w req)) := by
      unfold quizPhase
      rw [hd, hins]
    rw [hq]
    exact ⟨rfl, rfl, tempQuizRows_ids _ _ h3, tempQuizRows_ne_nil _ _ h3⟩
  | ok =>
    have hq : quizPhase w (resolvedId w req) row
          (applyResultWrite (storeAfterUpsert w req uid) (resolvedId w req) w.bundle)
        = ({ status := 200
           , body := RespBody.success (SnippetOut.row row) (tempQuizRows (resolvedId w req) w.bundle.quizzes) }
          , afterDelete StoreCallOutcome.ok
              (applyResultWrite (storeAfterUpsert w req uid) (resolvedId w req) w.bundle) (resolvedId w req)) := by
      unfold quizPhase
      rw [hd, hins]
    rw [hq]
    exact ⟨rfl, rfl, tempQuizRows_ids _ _ h3, tempQuizRows_ne_nil _ _ h3⟩

/-- Claim C4 witness: the amended theorem at a concrete failing quiz
insert. -/
theorem c4_amended_witness :
    (serve cw4b baseRequest).1.body
      = RespBody.success (SnippetOut.row updatedS1) (tempQuizRows "s1" sampleBundle.quizzes)
    ∧ (serve cw4b baseRequest).1.body.quizzesOf ≠ [] := by
  have h := c4_amended_insert_error_temp_ids cw4b baseRequest "u1" updatedS1 rfl rfl rfl rfl rfl rfl
    (by decide) rfl (by decide) (by decide) rfl (by decide)
  exact ⟨h.2.1, h.2.2.2⟩

/-- Claim C5: the handler run by `attacker` on a snippet owned by `u1`
rewrites the victim row (the result write filters only by id), deletes
and replaces the victim quizzes, and returns the victim row in the
body — writes occur and existence plus content leak. -/
theorem c5_ownership_violation :
    sampleSnippetRow.owner = "u1"
    ∧ attackWorld.authUser = some "attacker"
    ∧ baseRequest.snippet_id = some "s1"
    ∧ (serve attackWorld baseRequest).2.snippets = [victimRowAfter]
    ∧ victimRowAfter ≠ sampleSnippetRow
    ∧ (serve attackWorld baseRequest).2.quizzes ≠ attackWorld.store.quizzes
    ∧ (serve attackWorld baseRequest).1.body
        = RespBody.success (SnippetOut.row victimRowAfter)
            (insertedQuizRows attackWorld.assignQuizId "s1" sampleBundle.quizzes) :=
  ⟨rfl, rfl, rfl, by decide, by decide, by decide, by decide⟩

/-- Claim C10: every success body the handler produces reports snippet
status `ready`, on the happy path as well as on every fallback
branch. -/
theorem c10_success_body_ready (w : World) (req : Request) (s : SnippetOut) (qs : List QuizRow)
    (h : (serve w req).1.body = RespBody.success s qs) : s.statusStr = "ready" := by
  unfold serve at h
  repeat' split at h
  all_goals first
    | exact RespBody.noConfusion h
    | exact topFallback_ready _ _ _ h
    | exact persistPhase_ready _ _ _ _ _ h

/-- Claim C10 witness: the theorem at a concrete happy-path success
body. -/
theorem c10_witness :
    (serve baseWorld baseRequest).1.status = 200
    ∧ ∃ s qs, (serve baseWorld baseRequest).1.body = RespBody.success s qs ∧ s.statusStr = "ready" := by
  have hb : (serve baseWorld baseRequest).1.body
      = RespBody.success (SnippetOut.row updatedS1)
          (insertedQuizRows baseWorld.assignQuizId "s1" sampleBundle.quizzes) := by decide
  exact ⟨rfl, SnippetOut.row updatedS1,
    insertedQuizRows baseWorld.assignQuizId "s1" sampleBundle.quizzes, hb,
    c10_success_body_ready baseWorld baseRequest (SnippetOut.row updatedS1)
      (insertedQuizRows baseWorld.assignQuizId "s1" sampleBundle.quizzes) hb⟩

end Explain
